import Mathlib

/-!
Verification of the IT ticket dashboard data pipeline
(`src/it_ticket_dashboard.py`) against its specification.

The pipeline is embedded shallowly:
* timestamps are integers (seconds since the epoch), so that
  `(Resolved - Created).dt.total_seconds()` is plain integer subtraction;
* calendar dates (`.dt.date`) are integer day numbers obtained by flooring
  the timestamp to whole days;
* a pandas `DataFrame` is a list of rows together with its column list;
* `pd.to_datetime(..., errors="coerce")` is an arbitrary partial parsing
  function `String → Option ℤ` (unparsable values become `none`);
* the `try ... except` around the whole loader body is an
  `Except LoadException RawTable` input: the `.error` case stands for any
  exception raised while reading or processing the file.
-/

namespace ItTicketDashboard

/-- One row of the raw CSV, before any cleaning.  `Created` and `Resolved`
are `Option String`: `none` models a null/empty cell (dropped by the first
`dropna`), `some s` a textual value still to be parsed. -/
structure RawRow where
  created : Option String
  resolved : Option String
  issueType : String
  location : String
  assignee : String
  status : String
  priority : String
  issueKey : String
deriving DecidableEq, Repr

/-- The raw table produced by `pd.read_csv`: its header (column names) and
its rows. -/
structure RawTable where
  cols : List String
  rows : List RawRow
deriving DecidableEq, Repr

/-- An exception raised inside the `try` block of `load_and_process_data`
(e.g. a structurally unparsable file in `pd.read_csv`). -/
structure LoadException where
  msg : String
deriving DecidableEq, Repr

/-- A row after `pd.to_datetime(..., errors="coerce")` has been applied to
`Created` and `Resolved`: unparsable or missing values are `none`. -/
structure ParsedRow where
  created : Option ℤ
  resolved : Option ℤ
  issueType : String
  location : String
  assignee : String
  status : String
  priority : String
  issueKey : String
deriving DecidableEq, Repr

/-- A fully cleaned ticket row, with the derived columns
`Resolution Time (hrs)` and `Created Date`. -/
structure Ticket where
  created : ℤ
  resolved : ℤ
  issueType : String
  location : String
  assignee : String
  status : String
  priority : String
  issueKey : String
  resolutionHours : ℚ
  createdDate : ℤ
deriving DecidableEq, Repr

/-- The required columns checked by the loader
(`required_cols` in the source). -/
def required_cols : List String :=
  ["Created", "Resolved", "Issue Type", "Location", "Assignee", "Status",
   "Priority", "Issue key"]

/-- The required columns that are absent from a header.  The source tests
`not all(col in df.columns for col in required_cols)`; the check fails
exactly when this list is nonempty. -/
def missingCols (cols : List String) : List String :=
  required_cols.filter (fun c => !(cols.contains c))

/-- The first null drop, `df = df.dropna(subset=["Created", "Resolved"])`:
drop rows whose
`Created` or `Resolved` cell is null. -/
def dropNullRaw (rows : List RawRow) : List RawRow :=
  rows.filter (fun r => r.created.isSome && r.resolved.isSome)

/-- Timestamp parsing, `pd.to_datetime(df["Created"], errors="coerce")` and
the same for
`Resolved`, applied rowwise with an abstract parser. -/
def parseRow (parse : String → Option ℤ) (r : RawRow) : ParsedRow :=
  { created := r.created.bind parse
    resolved := r.resolved.bind parse
    issueType := r.issueType
    location := r.location
    assignee := r.assignee
    status := r.status
    priority := r.priority
    issueKey := r.issueKey }

/-- The second null drop,
`df.dropna(subset=["Created", "Resolved"], inplace=True)`, run
after parsing. -/
def dropNullParsed (rows : List ParsedRow) : List ParsedRow :=
  rows.filter (fun r => r.created.isSome && r.resolved.isSome)

/-- Derive `Resolution Time (hrs)` and `Created Date` on a surviving row:
`(Resolved - Created).dt.total_seconds() / 3600` and `Created.dt.date`. -/
def deriveTicket (r : ParsedRow) : Option Ticket :=
  match r.created, r.resolved with
  | some c, some d =>
      some { created := c
             resolved := d
             issueType := r.issueType
             location := r.location
             assignee := r.assignee
             status := r.status
             priority := r.priority
             issueKey := r.issueKey
             resolutionHours := ((d - c : ℤ) : ℚ) / 3600
             createdDate := c / 86400 }
  | _, _ => none

/-- The cleaning body of `load_and_process_data` after the schema check:
first null drop, timestamp parsing with coercion to null, second null
drop, then derivation of the two extra columns. -/
def cleanRows (parse : String → Option ℤ) (rows : List RawRow) : List Ticket :=
  (dropNullParsed ((dropNullRaw rows).map (parseRow parse))).filterMap deriveTicket

/-- The loader `load_and_process_data`: on any exception (`.error`) it shows a message
and returns `None`; otherwise it checks the required columns, returning
`None` if any is missing, and else returns the cleaned table. -/
def load_and_process_data (parse : String → Option ℤ)
    (input : Except LoadException RawTable) : Option (List Ticket) :=
  match input with
  | .error _ => none
  | .ok t =>
      if missingCols t.cols = [] then some (cleanRows parse t.rows) else none

/-- The columns named by the `st.error` message of the schema check.  The
source formats `', '.join(required_cols)`, i.e. it always names the full
required list, never the missing subset.  `none` when no schema message is
shown. -/
def loadErrorMessageCols (input : Except LoadException RawTable) :
    Option (List String) :=
  match input with
  | .error _ => none
  | .ok t => if missingCols t.cols = [] then none else some required_cols

/-- The sidebar filter criteria: inclusive date range plus the multiselect
lists for `Location` and `Issue Type`. -/
structure Criteria where
  startDate : ℤ
  endDate : ℤ
  locations : List String
  issueTypes : List String
deriving DecidableEq, Repr

/-- The row predicate of the `df.query` string
`(@start_date <= Created Date <= @end_date) & Location == @locations &
Issue Type == @issue_types` (comparison of a column with a list is pandas
`isin`). -/
def matchesFilter (c : Criteria) (t : Ticket) : Bool :=
  decide (c.startDate ≤ t.createdDate) && decide (t.createdDate ≤ c.endDate)
    && c.locations.contains t.location && c.issueTypes.contains t.issueType

/-- The filtered view `df_selection = df.query(...)` of the cleaned
table. -/
def df_selection (df : List Ticket) (c : Criteria) : List Ticket :=
  df.filter (matchesFilter c)

/-- One sidebar interaction of the main script: validate the date range
(`if start_date > end_date: st.sidebar.error(...); st.stop()`) and, when
valid, compute `df_selection`.  The first component is the cleaned table
the rerun continues with; `none` in the second means the run was stopped
before filtering. -/
def dashboardStep (df : List Ticket) (c : Criteria) :
    List Ticket × Option (List Ticket) :=
  if c.startDate > c.endDate then (df, none) else (df, some (df_selection df c))

/-- Round-half-to-even at integer precision, the rounding of Python's
built-in `round`. -/
def roundHalfEven (q : ℚ) : ℤ :=
  let f := ⌊q⌋
  let r := q - f
  if r < 1/2 then f
  else if 1/2 < r then f + 1
  else if f % 2 = 0 then f else f + 1

/-- Python `round(x, 2)`: round to two decimal places. -/
def round2 (q : ℚ) : ℚ := (roundHalfEven (q * 100) : ℚ) / 100

/-- Arithmetic mean of a list of rationals (`Series.mean`). -/
def listMean (l : List ℚ) : ℚ := l.sum / l.length

/-- The metrics block of the main script: `None` models the
`st.warning` empty-result state taken when `df_selection.empty`; otherwise
`total_tickets = len(df_selection)` and
`avg_res_time = round(df_selection["Resolution Time (hrs)"].mean(), 2)`. -/
def metricsBlock (sel : List Ticket) : Option (ℕ × ℚ) :=
  if sel.isEmpty then none
  else some (sel.length, round2 (listMean (sel.map Ticket.resolutionHours)))

/-- Pandas `Series.value_counts()` on one categorical column: each distinct value
paired with its number of occurrences, sorted by count descending
(`sort=True`; the relative order of tied counts is a presentation detail). -/
def countBy (l : List String) : List (String × ℕ) :=
  (l.dedup.map (fun v => (v, l.count v))).insertionSort
    (fun a b => b.2 ≤ a.2)

/-- The display sort
`df_selection.sort_values(by="Resolution Time (hrs)", ascending=False)`
is sorted descending on `resolutionHours`; this predicate states that
order on a candidate output list. -/
def sortedByResolutionDesc (l : List Ticket) : Prop :=
  l.Sorted (fun a b => b.resolutionHours ≤ a.resolutionHours)


/-! Concrete example data, used by witnesses: the two rows of the spec's
worked example (2.5 h and 0.0 h resolution), a ticket with negative
resolution time, and a raw table missing only the `Priority` column. -/

/-- Example cleaned ticket: created at epoch, resolved 9000 s (2.5 h)
later. -/
def exT1 : Ticket :=
  { created := 0, resolved := 9000, issueType := "Bug", location := "Cairo"
    assignee := "A", status := "Done", priority := "High", issueKey := "IT-1"
    resolutionHours := 5/2, createdDate := 0 }

/-- Example cleaned ticket: created and resolved at the same instant on
day 1. -/
def exT2 : Ticket :=
  { created := 122400, resolved := 122400, issueType := "Task"
    location := "Giza", assignee := "B", status := "Done", priority := "Low"
    issueKey := "IT-2", resolutionHours := 0, createdDate := 1 }

/-- Example cleaned table with the two example tickets. -/
def exDf : List Ticket := [exT1, exT2]

/-- Example valid filter criteria matching both example tickets. -/
def exCrit : Criteria :=
  { startDate := 0, endDate := 1, locations := ["Cairo", "Giza"]
    issueTypes := ["Bug", "Task"] }

/-- Example invalid filter criteria: start date after end date. -/
def exBadCrit : Criteria :=
  { startDate := 5, endDate := 2, locations := ["Cairo"]
    issueTypes := ["Bug"] }

/-- A concrete timestamp parser for witnesses, mapping four known strings
to timestamps and everything else to `none` (unparsable). -/
def exampleParse : String → Option ℤ := fun s =>
  if s = "t0" then some 0
  else if s = "t9000" then some 9000
  else if s = "a" then some 100
  else if s = "b" then some 0
  else none

/-- A raw row that survives cleaning and becomes `exT1`. -/
def goodRaw : RawRow :=
  { created := some "t0", resolved := some "t9000", issueType := "Bug"
    location := "Cairo", assignee := "A", status := "Done"
    priority := "High", issueKey := "IT-1" }

/-- A raw row whose `Resolved` timestamp precedes its `Created`
timestamp. -/
def negRaw : RawRow :=
  { created := some "a", resolved := some "b", issueType := "Bug"
    location := "Cairo", assignee := "A", status := "Done"
    priority := "High", issueKey := "IT-3" }

/-- The cleaned ticket produced from `negRaw`: resolved 100 s before
created, so its resolution time is negative. -/
def negTicket : Ticket :=
  { created := 100, resolved := 0, issueType := "Bug", location := "Cairo"
    assignee := "A", status := "Done", priority := "High", issueKey := "IT-3"
    resolutionHours := -(1/36), createdDate := 0 }

/-- A raw table whose header has every required column except
`Priority`. -/
def rawNoPriority : RawTable :=
  { cols := ["Created", "Resolved", "Issue Type", "Location", "Assignee",
             "Status", "Issue key"]
    rows := [] }

/-! Theorems -/

/-- C1: for every cleaned table and filter criteria with
startDate ≤ endDate, `df_selection` returns exactly the rows whose
`createdDate` lies in the inclusive range and whose `location` and
`issueType` belong to the allowed lists; an empty allowed list for either
field yields an empty result regardless of the other criteria. -/
theorem df_selection_exact (df : List Ticket) (c : Criteria)
    (h : c.startDate ≤ c.endDate) :
    (∀ t, t ∈ df_selection df c ↔
        t ∈ df ∧ c.startDate ≤ t.createdDate ∧ t.createdDate ≤ c.endDate ∧
          t.location ∈ c.locations ∧ t.issueType ∈ c.issueTypes)
    ∧ (c.locations = [] → df_selection df c = [])
    ∧ (c.issueTypes = [] → df_selection df c = []) := by
  refine ⟨fun t => ?_, fun hl => ?_, fun hi => ?_⟩
  · simp [df_selection, List.mem_filter, matchesFilter, and_assoc]
  · simp [df_selection, matchesFilter, hl]
  · simp [df_selection, matchesFilter, hi]

/-- Witness for C1 at the concrete example table and criteria. -/
theorem df_selection_exact_witness :
    exT1 ∈ df_selection exDf exCrit ↔
      exT1 ∈ exDf ∧ exCrit.startDate ≤ exT1.createdDate ∧
        exT1.createdDate ≤ exCrit.endDate ∧
        exT1.location ∈ exCrit.locations ∧
        exT1.issueType ∈ exCrit.issueTypes :=
  (df_selection_exact exDf exCrit (by decide)).1 exT1

/-- C5: when startDate > endDate, the interaction stops with an error
before any filtering (no filtered view is produced) and the cleaned table
is left unchanged. -/
theorem dashboardStep_rejects_bad_range (df : List Ticket) (c : Criteria)
    (h : c.endDate < c.startDate) :
    dashboardStep df c = (df, none) := by
  unfold dashboardStep
  rw [if_pos h]

/-- Witness for C5 at the concrete example table and invalid criteria. -/
theorem dashboardStep_rejects_bad_range_witness :
    dashboardStep exDf exBadCrit = (exDf, none) :=
  dashboardStep_rejects_bad_range exDf exBadCrit (by decide)

/-- C8: filtering is idempotent — applying `df_selection` with the same
valid criteria to an already-filtered table returns the same rows. -/
theorem df_selection_idempotent (df : List Ticket) (c : Criteria)
    (h : c.startDate ≤ c.endDate) :
    df_selection (df_selection df c) c = df_selection df c := by
  unfold df_selection
  induction df with
  | nil => rfl
  | cons t ts ih =>
    by_cases ht : matchesFilter c t
    · simp [List.filter_cons, ht, ih]
    · simp [List.filter_cons, ht, ih]

/-- Witness for C8 at the concrete example table and criteria. -/
theorem df_selection_idempotent_witness :
    df_selection (df_selection exDf exCrit) exCrit =
      df_selection exDf exCrit :=
  df_selection_idempotent exDf exCrit (by decide)

/-- C2: every row surviving cleaning has
resolutionHours = (resolved − created in seconds) / 3600, and a row whose
resolved time precedes its created time yields a negative value (it is
not rejected: see the witness, whose ticket is in the cleaned output). -/
theorem resolutionHours_formula (parse : String → Option ℤ)
    (rows : List RawRow) (t : Ticket) (h : t ∈ cleanRows parse rows) :
    t.resolutionHours = ((t.resolved - t.created : ℤ) : ℚ) / 3600 ∧
      (t.resolved < t.created → t.resolutionHours < 0) := by
  obtain ⟨p, hp, hd⟩ := List.mem_filterMap.mp h
  rcases hc : p.created with _ | c <;> rcases hrv : p.resolved with _ | d <;>
    simp [deriveTicket, hc, hrv] at hd
  subst hd
  refine ⟨by push_cast; ring, fun hlt => ?_⟩
  have hlt' : d < c := by simpa using hlt
  have hneg : ((d : ℚ) - (c : ℚ)) < 0 := by
    have := sub_neg.mpr hlt'
    exact_mod_cast this
  simpa using div_neg_of_neg_of_pos hneg (by norm_num)

/-- Witness for C2: the ticket cleaned from `negRaw` (resolved 100 s
before created) is in the output with resolutionHours = −1/36. -/
theorem resolutionHours_formula_witness :
    negTicket.resolutionHours =
        ((negTicket.resolved - negTicket.created : ℤ) : ℚ) / 3600 ∧
      (negTicket.resolved < negTicket.created →
        negTicket.resolutionHours < 0) :=
  resolutionHours_formula exampleParse [negRaw] negTicket (by
    simp [cleanRows, dropNullRaw, dropNullParsed, parseRow, deriveTicket,
      exampleParse, negRaw, negTicket]
    norm_num)

/-- C4: every ticket of the cleaned table comes from a raw row whose
`Created` and `Resolved` cells were present (first null drop), parsed
successfully to its timestamps (coercion plus second null drop), and its
resolutionHours was computed from those timestamps — so every cleaned row
has non-null created and resolved and a computed resolutionHours. -/
theorem cleanRows_provenance (parse : String → Option ℤ)
    (rows : List RawRow) (t : Ticket) (h : t ∈ cleanRows parse rows) :
    ∃ r ∈ rows, ∃ sc sd,
      r.created = some sc ∧ r.resolved = some sd ∧
      parse sc = some t.created ∧ parse sd = some t.resolved ∧
      t.resolutionHours = ((t.resolved - t.created : ℤ) : ℚ) / 3600 := by
  obtain ⟨p, hp, hd⟩ := List.mem_filterMap.mp h
  obtain ⟨hpmem, -⟩ := List.mem_filter.mp hp
  obtain ⟨r, hrmem, hpr⟩ := List.mem_map.mp hpmem
  obtain ⟨hrrows, hrnull⟩ := List.mem_filter.mp hrmem
  have hcs : r.created.isSome := by
    have := hrnull
    simp only [Bool.and_eq_true] at this
    exact this.1
  have hds : r.resolved.isSome := by
    have := hrnull
    simp only [Bool.and_eq_true] at this
    exact this.2
  obtain ⟨sc, hsc⟩ := Option.isSome_iff_exists.mp hcs
  obtain ⟨sd, hsd⟩ := Option.isSome_iff_exists.mp hds
  rcases hc : p.created with _ | c <;> rcases hrv : p.resolved with _ | d <;>
    simp [deriveTicket, hc, hrv] at hd
  subst hd
  refine ⟨r, hrrows, sc, sd, hsc, hsd, ?_, ?_, by push_cast; ring⟩
  · have : p.created = (some sc).bind parse := by
      rw [← hpr, ← hsc]
      rfl
    simpa [hc] using this.symm
  · have : p.resolved = (some sd).bind parse := by
      rw [← hpr, ← hsd]
      rfl
    simpa [hrv] using this.symm

/-- Witness for C4: the cleaned ticket `exT1` traces back to the raw row
`goodRaw` through both null drops and the parse. -/
theorem cleanRows_provenance_witness :
    ∃ r ∈ [goodRaw], ∃ sc sd,
      r.created = some sc ∧ r.resolved = some sd ∧
      exampleParse sc = some exT1.created ∧
      exampleParse sd = some exT1.resolved ∧
      exT1.resolutionHours =
        ((exT1.resolved - exT1.created : ℤ) : ℚ) / 3600 :=
  cleanRows_provenance exampleParse [goodRaw] exT1 (by
    simp [cleanRows, dropNullRaw, dropNullParsed, parseRow, deriveTicket,
      exampleParse, goodRaw, exT1]
    norm_num)

/-- C3 counterexample: with every required column present except
`Priority`, the missing-column list is exactly ["Priority"], but the error
message names the full required list, which is not exactly the missing
columns (it also names, e.g., the present column "Created"). -/
theorem schemaMessage_not_exactly_missing :
    missingCols rawNoPriority.cols = ["Priority"] ∧
    loadErrorMessageCols (.ok rawNoPriority) = some required_cols ∧
    required_cols ≠ ["Priority"] ∧
    "Created" ∈ required_cols ∧ "Created" ∉ missingCols rawNoPriority.cols := by
  decide

/-- C3 amended: when a required column is missing, loading fails with no
table, and the error message names all eight required columns — hence it
includes every missing column, but not exactly the missing ones. -/
theorem schemaError_names_required_cols (parse : String → Option ℤ)
    (t : RawTable) (h : missingCols t.cols ≠ []) :
    load_and_process_data parse (.ok t) = none ∧
    loadErrorMessageCols (.ok t) = some required_cols ∧
    ∀ m ∈ missingCols t.cols, m ∈ required_cols := by
  refine ⟨?_, ?_, fun m hm => List.mem_of_mem_filter hm⟩
  · simp [load_and_process_data, h]
  · simp [loadErrorMessageCols, h]

/-- Witness for the amended C3 at the table missing only `Priority`. -/
theorem schemaError_names_required_cols_witness :
    load_and_process_data exampleParse (.ok rawNoPriority) = none ∧
    loadErrorMessageCols (.ok rawNoPriority) = some required_cols ∧
    ∀ m ∈ missingCols rawNoPriority.cols, m ∈ required_cols :=
  schemaError_names_required_cols exampleParse rawNoPriority (by decide)

/-- C6: for a non-empty filtered table the metrics block returns the row
count and the mean of resolutionHours rounded to 2 decimal places, while
the empty filtered table is diverted to the empty-result state (`none`)
before any mean is computed. -/
theorem metricsBlock_spec (sel : List Ticket) (h : sel ≠ []) :
    metricsBlock sel =
      some (sel.length, round2 (listMean (sel.map Ticket.resolutionHours)))
    ∧ metricsBlock [] = none := by
  refine ⟨?_, rfl⟩
  have hne : sel.isEmpty = false := by
    simp [List.isEmpty_iff, h]
  simp [metricsBlock, hne]

/-- Witness for C6 at the spec's worked example: resolution hours 2.5 and
0.0 give total 2 and average 1.25. -/
theorem metricsBlock_spec_witness :
    metricsBlock [exT1, exT2] = some (2, (5 : ℚ) / 4) ∧
      metricsBlock [] = none := by
  have h := metricsBlock_spec [exT1, exT2] (by simp)
  refine ⟨?_, h.2⟩
  rw [h.1]
  norm_num [exT1, exT2, listMean, round2, roundHalfEven]

/-- C7: value_counts maps each distinct value of the column (including
singletons) to the number of rows carrying it, and the counts sum to the
row count of the input. -/
theorem countBy_spec (l : List String) :
    (∀ v n, (v, n) ∈ countBy l ↔ v ∈ l ∧ n = l.count v)
    ∧ ((countBy l).map Prod.snd).sum = l.length := by
  have hperm :
      List.Perm (countBy l) (l.dedup.map (fun v => (v, l.count v))) :=
    List.perm_insertionSort _ _
  constructor
  · intro v n
    rw [hperm.mem_iff, List.mem_map]
    constructor
    · rintro ⟨a, ha, heq⟩
      have h1 : a = v := congrArg Prod.fst heq
      have h2 : l.count a = n := congrArg Prod.snd heq
      subst h1
      exact ⟨List.mem_dedup.mp ha, h2.symm⟩
    · rintro ⟨hv, rfl⟩
      exact ⟨v, List.mem_dedup.mpr hv, rfl⟩
  · calc ((countBy l).map Prod.snd).sum
        = ((l.dedup.map (fun v => (v, l.count v))).map Prod.snd).sum :=
          (hperm.map Prod.snd).sum_eq
      _ = (l.dedup.map (fun v => l.count v)).sum := by
          simp [List.map_map, Function.comp_def]
      _ = l.length := List.sum_map_count_dedup_eq_length l

/-- C10: every loader failure — an exception while reading or processing,
as well as a missing required column — returns no table (`none`), and the
two failure kinds return the very same value, so the caller cannot tell
them apart from the returned value alone. -/
theorem load_failures_indistinguishable (parse : String → Option ℤ)
    (e : LoadException) (t : RawTable) (h : missingCols t.cols ≠ []) :
    load_and_process_data parse (.error e) = none ∧
    load_and_process_data parse (.ok t) = none ∧
    load_and_process_data parse (.error e) =
      load_and_process_data parse (.ok t) := by
  refine ⟨rfl, ?_, ?_⟩ <;> simp [load_and_process_data, h]

/-- Witness for C10 at a concrete read exception and the table missing
`Priority`. -/
theorem load_failures_indistinguishable_witness :
    load_and_process_data exampleParse (.error ⟨"boom"⟩) = none ∧
    load_and_process_data exampleParse (.ok rawNoPriority) = none ∧
    load_and_process_data exampleParse (.error ⟨"boom"⟩) =
      load_and_process_data exampleParse (.ok rawNoPriority) :=
  load_failures_indistinguishable exampleParse ⟨"boom"⟩ rawNoPriority
    (by decide)

end ItTicketDashboard
